import Mathlib

/-!
Verification of the Agri_Connect image-analysis handlers.

The repository consists of five serverless handler variants:
* `api/analyze.js` (OpenAI responses API, multipart upload),
* `api/analyze-claude.js` (Claude or generic Gemini, multipart upload),
* three legacy variants concatenated in one unnamed file: an older
  `analyze.js`, a JSON-body `imageUrl` handler (OpenAI chat completions),
  and a native-Gemini multipart handler.

This file embeds the JSON-like value space the handlers manipulate, the
JavaScript semantics the code relies on (truthiness, `||` defaulting,
`Array.prototype.join` stringification, optional-chaining field access),
Node's `path.extname`, the formidable upload filters, the provider payload
builders, the response-text extraction routines, and the request/response
behaviour of each handler as a pure function from request data and
environment configuration to an HTTP response plus a trace of the side
effects the claims are about (provider call, temp-artifact creation and
deletion, selected provider, provider payload, MIME actually used).
-/

namespace AgriConnect

mutual
/-- JSON-like values as handled by the JavaScript code.  `null` also stands
for JavaScript's `undefined`: none of the embedded code distinguishes the
two (both are falsy, both make optional chaining yield `undefined`, and the
code only ever reads fields through total access or after a truthiness
guard).  Numbers are modelled as integers; the claims never involve
fractional values. -/
inductive JsonVal where
  | null : JsonVal
  | bool : Bool → JsonVal
  | num : Int → JsonVal
  | str : String → JsonVal
  | arr : JsonArr → JsonVal
  | obj : JsonObj → JsonVal

inductive JsonArr where
  | nil : JsonArr
  | cons : JsonVal → JsonArr → JsonArr

inductive JsonObj where
  | nil : JsonObj
  | cons : String → JsonVal → JsonObj → JsonObj
end

deriving instance DecidableEq for JsonVal, JsonArr, JsonObj

/-- Build a `JsonArr` from a list of values. -/
def JsonArr.ofList : List JsonVal → JsonArr
  | [] => .nil
  | v :: vs => .cons v (JsonArr.ofList vs)

/-- Flatten a `JsonArr` into a list of values. -/
def JsonArr.toList : JsonArr → List JsonVal
  | .nil => []
  | .cons v vs => v :: JsonArr.toList vs

/-- Build a `JsonObj` from a list of key/value pairs. -/
def JsonObj.ofList : List (String × JsonVal) → JsonObj
  | [] => .nil
  | (k, v) :: kvs => .cons k v (JsonObj.ofList kvs)

/-- Array literal helper. -/
def jArr (vs : List JsonVal) : JsonVal := .arr (JsonArr.ofList vs)

/-- Object literal helper.  Fixture objects in this file use distinct keys,
so the first-match lookup below agrees with JavaScript's semantics. -/
def jObj (kvs : List (String × JsonVal)) : JsonVal := .obj (JsonObj.ofList kvs)

/-- JavaScript truthiness of a value. -/
def truthy : JsonVal → Bool
  | .null => false
  | .bool b => b
  | .num n => n != 0
  | .str s => s != ""
  | .arr _ => true
  | .obj _ => true

/-- JavaScript `a || b` on values: `a` when truthy, otherwise `b`. -/
def jsOrVal (a b : JsonVal) : JsonVal := if truthy a then a else b

/-- Property lookup in an object. -/
def getFieldObj : JsonObj → String → JsonVal
  | .nil, _ => .null
  | .cons k v rest, key => if k = key then v else getFieldObj rest key

/-- Total field access `v.key` / `v?.key` as the handlers use it: `null`
(i.e. `undefined`) for a missing field or a non-object receiver. -/
def getField : JsonVal → String → JsonVal
  | .obj kvs, key => getFieldObj kvs key
  | _, _ => .null

/-- Index into a `JsonArr`. -/
def arrGet : JsonArr → Nat → JsonVal
  | .nil, _ => .null
  | .cons v _, 0 => v
  | .cons _ vs, n + 1 => arrGet vs n

/-- JavaScript `v?.[i]`: array index, string character, or numeric-keyed
object property; `undefined` otherwise. -/
def getIdx : JsonVal → Nat → JsonVal
  | .arr vs, i => arrGet vs i
  | .str s, i =>
      match s.data.get? i with
      | some c => .str (String.mk [c])
      | none => .null
  | .obj kvs, i => getFieldObj kvs (toString i)
  | _, _ => .null

mutual
/-- How `Array.prototype.join` renders one element: `null`/`undefined`
become the empty string, other values go through `String(·)` (arrays join
their elements with commas, plain objects print as `[object Object]`). -/
def jsElemStr : JsonVal → String
  | .null => ""
  | .bool b => if b then "true" else "false"
  | .num n => toString n
  | .str s => s
  | .arr vs => String.intercalate "," (jsArrStrs vs)
  | .obj _ => "[object Object]"

def jsArrStrs : JsonArr → List String
  | .nil => []
  | .cons v vs => jsElemStr v :: jsArrStrs vs
end

/-- JavaScript `a || b` for a possibly-undefined string `a` with string
default `b` (the empty string is falsy). -/
def strOr (a : Option String) (b : String) : String :=
  match a with
  | some s => if s = "" then b else s
  | none => b

/-- Truthiness of an environment variable: set and non-empty. -/
def truthyEnv : Option String → Bool
  | some s => s != ""
  | none => false

/-- JavaScript `String.prototype.toLowerCase` on the ASCII strings the
handlers compare (file extensions): character-wise lower-casing.  Defined
by structural recursion over the character list so that concrete
evaluations reduce in the kernel. -/
def lowerStr (s : String) : String := String.mk (s.data.map Char.toLower)

/-- Scan a reversed basename up to and including its first `'.'` (i.e. the
last dot of the basename); `none` when there is no dot. -/
def takeThroughDot : List Char → Option (List Char)
  | [] => none
  | c :: rest => if c = '.' then some ['.'] else (takeThroughDot rest).map (c :: ·)

/-- Node's `path.extname`: the substring of the basename from its last
`'.'` to the end, except that a dot in leading position (dotfiles) and the
special name `".."` yield the empty string. -/
def extname (s : String) : String :=
  let base := (s.data.reverse.takeWhile (fun c => c != '/')).reverse
  match takeThroughDot base.reverse with
  | none => ""
  | some revExt =>
      if revExt.length = base.length then ""
      else if base = ['.', '.'] then ""
      else String.mk revExt.reverse

example : extname "leaf.gif" = ".gif" := by decide
example : extname "/tmp/upload.PNG" = ".PNG" := by decide
example : extname ".bashrc" = "" := by decide
example : extname "index." = "." := by decide
example : extname "noext" = "" := by decide
example : lowerStr (extname "LEAF.GIF") = ".gif" := by decide

/-- A part of the multipart form as formidable presents it to the upload
filter.  `filename` is the legacy name of the `originalFilename` field,
probed by `analyze.js` and `analyze-claude.js` for compatibility with older
formidable versions. -/
structure Part where
  originalFilename : Option String
  filename : Option String
  mimetype : Option String

/-- The allowed-extension set of `api/analyze.js` and
`api/analyze-claude.js`. -/
def uploadExts : List String := [".jpg", ".jpeg", ".png", ".webp", ".gif"]

/-- The allowed-extension set of the legacy native-Gemini handler: it lacks
`.gif`. -/
def geminiExts : List String := [".jpg", ".jpeg", ".png", ".webp"]

/-- Character-list prefix test, by structural recursion so that concrete
evaluations reduce in the kernel. -/
def isAsciiPrefix : List Char → List Char → Bool
  | [], _ => true
  | _ :: _, [] => false
  | c :: cs, d :: ds => c == d && isAsciiPrefix cs ds

/-- `part?.mimetype?.startsWith?.('image/')` coerced to `Bool`: a missing
MIME type makes the whole optional chain `undefined`, hence falsy. -/
def jsStartsWithImage : Option String → Bool
  | some m => isAsciiPrefix "image/".data m.data
  | none => false

/-- The formidable `filter` of `api/analyze.js`: declared MIME type must
start with `image/` and the lower-cased extension of
`originalFilename ?? filename ?? ''` must be in `uploadExts`. -/
def filterAnalyze (p : Part) : Bool :=
  let allowedMime := jsStartsWithImage p.mimetype
  let name := ((p.originalFilename).orElse fun _ => p.filename).getD ""
  let ext := if name = "" then "" else lowerStr (extname name)
  allowedMime && uploadExts.contains ext

/-- The formidable `filter` of `parseForm` in `api/analyze-claude.js`:
identical checks to `filterAnalyze` (the allow list there is written as an
array literal with the same five extensions). -/
def filterClaude (p : Part) : Bool :=
  let name := ((p.originalFilename).orElse fun _ => p.filename).getD ""
  let ext := if name = "" then "" else lowerStr (extname name)
  let allowedMime := jsStartsWithImage p.mimetype
  allowedMime && uploadExts.contains ext

/-- The formidable `filter` of the legacy native-Gemini handler: extension
of `part.originalFilename || ""` must be in `geminiExts` (no `.gif`), MIME
must start with `image/`. -/
def filterGemini (p : Part) : Bool :=
  let ext := lowerStr (extname (strOr p.originalFilename ""))
  jsStartsWithImage p.mimetype && geminiExts.contains ext

/-- Modelled from the spec, for comparison with the code: the allow-list
predicate exactly as the specification words it — the declared MIME type
starts with `image/` AND the lower-cased filename extension is a member of
the fixed set recorded as `uploadExts`. -/
def specAllowedUpload (mime : Option String) (filename : String) : Bool :=
  jsStartsWithImage mime && uploadExts.contains (lowerStr (extname filename))

/-- `json.content.map(c => c?.text || '').filter(Boolean).join('\n\n')`
from `extractAnalysisText` in `api/analyze-claude.js`. -/
def joinTextBlocks (cs : List JsonVal) : String :=
  String.intercalate "\n\n"
    (((cs.map fun c => jsOrVal (getField c "text") (.str "")).filter
      fun v => truthy v).map jsElemStr)

/-- `json.message.content.map(c => typeof c === 'string' ? c : c?.text ||
'').filter(Boolean).join('\n\n')` from `extractAnalysisText`. -/
def joinMessageBlocks (cs : List JsonVal) : String :=
  String.intercalate "\n\n"
    (((cs.map fun c =>
        match c with
        | .str s => JsonVal.str s
        | _ => jsOrVal (getField c "text") (.str "")).filter
      fun v => truthy v).map jsElemStr)

/-- The two content-array fallbacks of `extractAnalysisText`:
`json.message?.content` first, then `json.content`. -/
def extractAnalysisRest (json : JsonVal) : String :=
  match getField (getField json "message") "content" with
  | .arr cs => joinMessageBlocks cs.toList
  | _ =>
      match getField json "content" with
      | .arr cs => joinTextBlocks cs.toList
      | _ => ""

/-- `extractAnalysisText` of `api/analyze-claude.js`: empty string for a
falsy input, `json.completion` when that is a non-empty string, otherwise
the content-array fallbacks.  Always returns a string (`join` stringifies
its elements), matching the JavaScript, which cannot throw here. -/
def extractAnalysisText (json : JsonVal) : String :=
  if truthy json = false then ""
  else
    match getField json "completion" with
    | .str s => if s = "" then extractAnalysisRest json else s
    | _ => extractAnalysisRest json

/-- The analysis string the `analyze-claude` handler delivers: the
extraction result, or the fixed fallback when that is empty (`if
(!analysisText) analysisText = 'No analysis returned from model.'`). -/
def claudeAnalysisOf (json : JsonVal) : String :=
  let t := extractAnalysisText json
  if t = "" then "No analysis returned from model." else t

/-- One element of the inner `out.content.map(...)` in `api/analyze.js`:
`c?.text || c?.type === "output_text" && c?.text || ""`.  The middle
disjunct can only produce `c?.text` when it is falsy, so the whole
expression is `c?.text` when truthy and `""` otherwise. -/
def openaiContentElem (c : JsonVal) : JsonVal :=
  jsOrVal (getField c "text") (.str "")

/-- One element of the outer `output.map(...)` in `api/analyze.js`: empty
string for a falsy item, the item itself when it is a string, otherwise the
space-joined truthy text fragments of `out.content` when that is an array,
and `""` otherwise. -/
def openaiOutItem (out : JsonVal) : String :=
  if truthy out = false then ""
  else
    match out with
    | .str s => s
    | _ =>
        match getField out "content" with
        | .arr cs =>
            String.intercalate " "
              (((cs.toList.map openaiContentElem).filter fun v => truthy v).map jsElemStr)
        | _ => ""

/-- The raw extraction of `api/analyze.js` (lines 99-124): `response.output`
when a string; the blank-line-joined item texts when it is an array;
otherwise `response.output_text` when truthy (note: delivered as-is, even
when it is not a string); otherwise the initial `""`. -/
def openaiExtractRaw (resp : JsonVal) : JsonVal :=
  match getField resp "output" with
  | .str s => .str s
  | .arr xs =>
      .str (String.intercalate "\n\n"
        ((xs.toList.map openaiOutItem).filter fun s => s != ""))
  | _ => jsOrVal (getField resp "output_text") (.str "")

/-- The analysis value `api/analyze.js` delivers: the raw extraction, with
the fixed fallback string substituted when that is falsy. -/
def openaiAnalysisOf (resp : JsonVal) : JsonVal :=
  jsOrVal (openaiExtractRaw resp) (.str "AI did not return any analysis for this image.")

/-- `true` exactly on `null` elements, which make `p.text` throw in the
legacy Gemini extraction. -/
def isNullVal : JsonVal → Bool
  | .null => true
  | _ => false

/-- The extraction of the legacy native-Gemini handler:
`data?.candidates?.[0]?.content?.parts` is tested for truthiness, then
`.map(p => p.text || "").join("\n")` runs on it without optional chaining,
so a truthy non-array `parts` (no `.map`) or a `null` element (`p.text`)
throws a `TypeError`, modelled as `.error`. -/
def geminiExtract (data : JsonVal) : Except Unit String :=
  let parts := getField (getField (getIdx (getField data "candidates") 0) "content") "parts"
  if truthy parts = false then .ok ""
  else
    match parts with
    | .arr xs =>
        if (xs.toList.any isNullVal) = true then .error ()
        else .ok (String.intercalate "\n"
          (xs.toList.map fun p => jsElemStr (jsOrVal (getField p "text") (.str ""))))
    | _ => .error ()

/-- The analysis string the legacy Gemini handler delivers on a successful
extraction: the fixed fallback when the extraction is empty. -/
def gemini3AnalysisOf (t : String) : String :=
  if t = "" then "Unable to extract analysis from Gemini response." else t

example : extractAnalysisText (jObj [("content", jArr [jObj [("text", .str "Healthy crop.")]])]) = "Healthy crop." := by decide
example : extractAnalysisText (jObj []) = "" := by decide
example : claudeAnalysisOf (jObj []) = "No analysis returned from model." := by decide
example : openaiAnalysisOf (jObj [("output_text", .num 5)]) = .num 5 := by decide
example : openaiAnalysisOf (jObj [("output", jArr [jObj [("content", jArr [jObj [("type", .str "output_text"), ("text", .str "Hi")]])]])]) = .str "Hi" := by decide

/-- Process-wide configuration read from the environment.  `none` models an
unset variable; the handlers treat set-but-empty as falsy except for the
OpenAI SDK constructor, which only throws when the value is `undefined`. -/
structure Env where
  OPENAI_API_KEY : Option String
  CLAUDE_API_KEY : Option String
  GEMINI_API_KEY : Option String
  GEMINI_API_URL : Option String
  GEMINI_MODEL : Option String

/-- The stored-file object formidable hands back for the `image` field.
`filepath` collapses the version-compatibility probe `img?.filepath ??
img?.filePath ?? img?.path ?? img?._writeStream?.path` into the first
present stored path.  `type` is the legacy MIME field of old formidable
versions.  `fsExists` is the file-system answer to `fs.existsSync` at read
time, and `base64` is the base64 rendering of the stored bytes that
`fs.readFileSync(...).toString("base64")` produces. -/
structure FileObj where
  filepath : Option String
  mimetype : Option String
  type : Option String
  fsExists : Bool
  base64 : String

/-- The provider variant whose HTTP endpoint a handler calls. -/
inductive Provider where
  | openaiResponses : Provider
  | openaiChat : Provider
  | claude : Provider
  | gemini : Provider
  | geminiNative : Provider
deriving DecidableEq

/-- The observable outcome of one handler invocation: HTTP status and JSON
body, plus the side effects the specification constrains — whether the
provider HTTP call was made and with which payload, whether a temporary
upload artifact was stored, and whether it was deleted before returning. -/
structure HandlerRun where
  status : Nat
  body : JsonVal
  providerCalled : Bool
  stored : Bool
  deleted : Bool
  selected : Option Provider
  payload : Option JsonVal
  usedMime : Option String

/-- The `405` response shared by the three method-checking handlers. -/
def method405 : HandlerRun :=
  { status := 405, body := jObj [("error", .str "Method not allowed")],
    providerCalled := false, stored := false, deleted := false,
    selected := none, payload := none, usedMime := none }

/-- The formidable parse step shared by the upload handlers: the request
either carries no file part, or one part which is stored if and only if the
handler's filter accepts it.  `storedPath` is the temporary path formidable
chooses (with `keepExtensions: true` it carries the original filename's
extension; the path is an input here because its exact shape is decided by
the formidable library, not by this repository). -/
def parseForm (filt : Part → Bool) (part : Option Part) (storedPath : String)
    (b64 : String) : Option FileObj :=
  match part with
  | none => none
  | some p =>
      if filt p then
        some { filepath := some storedPath, mimetype := p.mimetype,
               type := none, fsExists := true, base64 := b64 }
      else none

/-- The fixed instruction text of `api/analyze.js`. -/
def openaiPromptText : String :=
  "You are an expert Indian agronomist. Analyze this crop image and give clear, step-by-step guidance, diagnosis, and recommended actions."

/-- The `promptInput` array `api/analyze.js` sends to the responses API. -/
def openaiPromptInput (dataUrl : String) : JsonVal :=
  jArr [jObj [("role", .str "user"),
              ("content", jArr [
                jObj [("type", .str "input_text"), ("text", .str openaiPromptText)],
                jObj [("type", .str "input_image"), ("image_url", .str dataUrl)]])]]

/-- The fixed instruction text of `callClaude` in `api/analyze-claude.js`. -/
def claudePromptText : String :=
  "You are an expert agricultural advisor. Analyze this crop image and provide:\n\n1. Crop Identification: What crop is this (if identifiable)?\n2. Health Assessment: Is the crop healthy or showing signs of disease/stress?\n3. Issues Detected: Any visible problems (diseases, pests, nutrient deficiencies, water stress)?\n4. Recommendations: Specific actions the farmer should take.\n5. Severity: Rate the urgency (Low/Medium/High).\n\nPlease be specific and practical. Format your response clearly with these sections."

/-- The request body `callClaude` posts to the Anthropic endpoint. -/
def claudePayload (mime b64 : String) : JsonVal :=
  jObj [("model", .str "claude-sonnet-4-20250514"),
        ("max_tokens", .num 1000),
        ("messages", jArr [
          jObj [("role", .str "user"),
                ("content", jArr [
                  jObj [("type", .str "image"),
                        ("source", jObj [("type", .str "base64"),
                                         ("media_type", .str mime),
                                         ("data", .str b64)])],
                  jObj [("type", .str "text"), ("text", .str claudePromptText)]])]])]

/-- The fixed instruction text of `callGemini` in `api/analyze-claude.js`. -/
def geminiGenericPromptText : String :=
  "You are an expert agricultural advisor. Analyze the provided crop image (base64).\n\nProvide: Crop Identification, Health Assessment, Issues Detected, Recommendations, Severity (Low/Medium/High)."

/-- The request body `callGemini` posts to the configured endpoint. -/
def geminiGenericBody (env : Env) (mime b64 : String) : JsonVal :=
  jObj [("prompt", .str geminiGenericPromptText),
        ("image", jObj [("media_type", .str mime), ("data", .str b64)]),
        ("model", .str (strOr env.GEMINI_MODEL "gemini-large"))]

/-- The fixed instruction text of the legacy native-Gemini handler. -/
def gemini3PromptText : String :=
  "You are an expert Indian agronomist. Analyze this crop image and give step-by-step diagnosis and recommended actions."

/-- The request body the legacy native-Gemini handler posts. -/
def gemini3Body (model mime b64 : String) : JsonVal :=
  jObj [("model", .str model),
        ("contents", jArr [
          jObj [("parts", jArr [
            jObj [("text", .str gemini3PromptText)],
            jObj [("inlineData", jObj [("data", .str b64), ("mimeType", .str mime)])]])]])]

/-- The system text of the legacy `imageUrl` chat-completions handler. -/
def chatSystemText : String :=
  "You are an expert Indian agronomist. Analyze crop images for diseases, pests, nutrient deficiencies, water stress and give recommendations."

/-- The request body of the legacy `imageUrl` chat-completions handler. -/
def chatPayload (imageUrl : JsonVal) : JsonVal :=
  jObj [("model", .str "gpt-4.1-mini"),
        ("messages", jArr [
          jObj [("role", .str "system"), ("content", .str chatSystemText)],
          jObj [("role", .str "user"),
                ("content", jArr [
                  jObj [("type", .str "text"),
                        ("text", .str "Analyze this crop image and provide complete guidance.")],
                  jObj [("type", .str "image_url"),
                        ("image_url", jObj [("url", imageUrl)])]])]]),
        ("max_tokens", .num 700)]

/-- The misconfiguration message of `api/analyze.js`. -/
def openaiConfigMsg : String :=
  "Server misconfiguration: OPENAI_API_KEY is not set. Please configure your environment variables."

/-- `api/analyze.js` after the method check and the formidable parse:
missing file → 400; unlocatable stored file → 400; stored extension not in
the allow list → `unlinkSync` then 400; then MIME defaulting, the
`OPENAI_API_KEY` precondition (500 before any provider call), the provider
call and the normalized 200 response.  Note the success and
missing-key paths never delete the stored artifact. -/
def handlerAnalyzePost (env : Env) (files : Option FileObj) (resp : JsonVal) : HandlerRun :=
  match files with
  | none =>
      { status := 400, body := jObj [("error", .str "Image not uploaded")],
        providerCalled := false, stored := false, deleted := false,
        selected := none, payload := none, usedMime := none }
  | some img =>
      let imgPath := img.filepath.getD ""
      if imgPath = "" ∨ img.fsExists = false then
        { status := 400,
          body := jObj [("error", .str "Uploaded image file not found on server.")],
          providerCalled := false, stored := true, deleted := false,
          selected := none, payload := none, usedMime := none }
      else if uploadExts.contains (lowerStr (extname imgPath)) = false then
        { status := 400, body := jObj [("error", .str "Uploaded file type not allowed.")],
          providerCalled := false, stored := true, deleted := true,
          selected := none, payload := none, usedMime := none }
      else
        let mime := strOr img.mimetype (strOr img.type "image/jpeg")
        let dataUrl := "data:" ++ mime ++ ";base64," ++ img.base64
        if truthyEnv env.OPENAI_API_KEY = false then
          { status := 500, body := jObj [("error", .str openaiConfigMsg)],
            providerCalled := false, stored := true, deleted := false,
            selected := none, payload := none, usedMime := some mime }
        else
          { status := 200,
            body := jObj [("analysis", openaiAnalysisOf resp), ("raw", resp)],
            providerCalled := true, stored := true, deleted := false,
            selected := some .openaiResponses,
            payload := some (openaiPromptInput dataUrl), usedMime := some mime }

/-- The handler of `api/analyze.js`: method gate, formidable parse with
`filterAnalyze`, then `handlerAnalyzePost`.  `resp` is the parsed response
of the OpenAI SDK call on the success path. -/
def handlerAnalyze (env : Env) (method : String) (part : Option Part)
    (storedPath b64 : String) (resp : JsonVal) : HandlerRun :=
  if method = "POST" then
    handlerAnalyzePost env (parseForm filterAnalyze part storedPath b64) resp
  else method405

/-- The 500 response produced when a helper of `api/analyze-claude.js`
throws and the handler-level catch reports it. -/
def claudeCatch (msg : String) (stored deleted : Bool) : HandlerRun :=
  { status := 500,
    body := jObj [("error", .str "Server error while analyzing image."),
                  ("details", .str msg)],
    providerCalled := false, stored := stored, deleted := deleted,
    selected := none, payload := none, usedMime := none }

/-- The misconfiguration message of `api/analyze-claude.js`. -/
def claudeConfigMsg : String :=
  "Server misconfiguration: no model API key provided. Set CLAUDE_API_KEY or (GEMINI_API_KEY + GEMINI_API_URL)."

/-- `api/analyze-claude.js` after the method check and parse.
`readAndValidateImage` throws (→ 500 via the catch) on an unlocatable file
and on a disallowed stored extension (deleting the artifact first in the
latter case), and on success reads the bytes and deletes the artifact
immediately.  Then credential selection: complete Gemini configuration wins
over Claude; neither → 500 before any call.  `pbody` is the fetch
response body parsed as JSON, `none` when unparseable, in which case
`.json().catch(() => ({}))` substitutes an empty object. -/
def handlerClaudePost (env : Env) (files : Option FileObj) (pbody : Option JsonVal) : HandlerRun :=
  match files with
  | none =>
      { status := 400, body := jObj [("error", .str "Image not uploaded")],
        providerCalled := false, stored := false, deleted := false,
        selected := none, payload := none, usedMime := none }
  | some img =>
      let imgPath := img.filepath.getD ""
      if imgPath = "" ∨ img.fsExists = false then
        claudeCatch "Uploaded image file not found on server." true false
      else if uploadExts.contains (lowerStr (extname imgPath)) = false then
        claudeCatch "Uploaded file type not allowed." true true
      else
        let mime := strOr img.mimetype (strOr img.type "image/jpeg")
        let hasClaude := truthyEnv env.CLAUDE_API_KEY
        let hasGemini := truthyEnv env.GEMINI_API_KEY && truthyEnv env.GEMINI_API_URL
        if hasClaude = false ∧ hasGemini = false then
          { status := 500, body := jObj [("error", .str claudeConfigMsg)],
            providerCalled := false, stored := true, deleted := true,
            selected := none, payload := none, usedMime := some mime }
        else
          let json := pbody.getD (jObj [])
          { status := 200,
            body := jObj [("analysis", .str (claudeAnalysisOf json)), ("raw", json)],
            providerCalled := true, stored := true, deleted := true,
            selected := some (if hasGemini then .gemini else .claude),
            payload := some (if hasGemini then geminiGenericBody env mime img.base64
                             else claudePayload mime img.base64),
            usedMime := some mime }

/-- The handler of `api/analyze-claude.js`. -/
def handlerClaude (env : Env) (method : String) (part : Option Part)
    (storedPath b64 : String) (pbody : Option JsonVal) : HandlerRun :=
  if method = "POST" then
    handlerClaudePost env (parseForm filterClaude part storedPath b64) pbody
  else method405

/-- The legacy native-Gemini handler after the method check and parse:
missing file → 400 `"No image uploaded"`; `fs.existsSync` failure → 400
`"Image missing on server"`; stored extension outside `geminiExts` →
`unlinkSync` then 400 `"Invalid file type"`; MIME defaulting (no legacy
`type` probe here); the `GEMINI_API_KEY` precondition → 500 before any
call; then the fetch.  `await gemResp.json()` has no `.catch`, so an
unparseable body (`pbody = none`) rejects and the outer catch answers 500
`"Server error during analysis"`; a `TypeError` inside the extraction takes
the same path.  The success and missing-key paths never delete the
artifact.  The engine-rendered `details` messages of the two thrown paths
are fixed placeholder strings here; no claim depends on their text. -/
def handlerGemini3Post (env : Env) (files : Option FileObj) (pbody : Option JsonVal) : HandlerRun :=
  match files with
  | none =>
      { status := 400, body := jObj [("error", .str "No image uploaded")],
        providerCalled := false, stored := false, deleted := false,
        selected := none, payload := none, usedMime := none }
  | some img =>
      let imgPath := img.filepath.getD ""
      if imgPath = "" ∨ img.fsExists = false then
        { status := 400, body := jObj [("error", .str "Image missing on server")],
          providerCalled := false, stored := true, deleted := false,
          selected := none, payload := none, usedMime := none }
      else if geminiExts.contains (lowerStr (extname imgPath)) = false then
        { status := 400, body := jObj [("error", .str "Invalid file type")],
          providerCalled := false, stored := true, deleted := true,
          selected := none, payload := none, usedMime := none }
      else
        let mime := strOr img.mimetype "image/jpeg"
        if truthyEnv env.GEMINI_API_KEY = false then
          { status := 500,
            body := jObj [("error", .str "GEMINI_API_KEY not found in environment variables.")],
            providerCalled := false, stored := true, deleted := false,
            selected := none, payload := none, usedMime := some mime }
        else
          let model := strOr env.GEMINI_MODEL "gemini-1.5-flash"
          let payload := gemini3Body model mime img.base64
          match pbody with
          | none =>
              { status := 500,
                body := jObj [("error", .str "Server error during analysis"),
                              ("details", .str "Unexpected end of JSON input")],
                providerCalled := true, stored := true, deleted := false,
                selected := some .geminiNative, payload := some payload,
                usedMime := some mime }
          | some data =>
              match geminiExtract data with
              | .error _ =>
                  { status := 500,
                    body := jObj [("error", .str "Server error during analysis"),
                                  ("details", .str "TypeError in response parsing")],
                    providerCalled := true, stored := true, deleted := false,
                    selected := some .geminiNative, payload := some payload,
                    usedMime := some mime }
              | .ok t =>
                  { status := 200,
                    body := jObj [("analysis", .str (gemini3AnalysisOf t)), ("raw", data)],
                    providerCalled := true, stored := true, deleted := false,
                    selected := some .geminiNative, payload := some payload,
                    usedMime := some mime }

/-- The legacy native-Gemini handler. -/
def handlerGemini3 (env : Env) (method : String) (part : Option Part)
    (storedPath b64 : String) (pbody : Option JsonVal) : HandlerRun :=
  if method = "POST" then
    handlerGemini3Post env (parseForm filterGemini part storedPath b64) pbody
  else method405

/-- Modelled from the spec and the openai SDK dependency: the `OpenAI`
constructor throws an `OpenAIError` when no API key is supplied and the
`OPENAI_API_KEY` environment variable is unset; the message below is the
documented one, trimmed.  This code lives in the `openai` package, not in
this repository. -/
def openaiCtorErrMsg : String :=
  "OpenAIError: The OPENAI_API_KEY environment variable is missing or empty."

/-- The engine message for `const { imageUrl } = req.body` when `req.body`
is `undefined`; its exact text is engine-specific and no claim depends on
it. -/
def destructureErrMsg : String :=
  "TypeError: Cannot destructure property imageUrl of req.body as it is undefined."

/-- The legacy `imageUrl` chat-completions handler.  It performs no method
check and no upload parsing: it destructures `req.body` (throwing when the
body is absent, modelled by `.null`), constructs the OpenAI client (which
throws when `OPENAI_API_KEY` is unset), issues the chat-completions call
and returns the provider response object itself as the 200 body.  Both
throws land in the catch, which answers 500 with `error.toString()`. -/
def handlerUrl (env : Env) (_method : String) (body : JsonVal) (resp : JsonVal) : HandlerRun :=
  if body = .null then
    { status := 500, body := jObj [("error", .str destructureErrMsg)],
      providerCalled := false, stored := false, deleted := false,
      selected := none, payload := none, usedMime := none }
  else if env.OPENAI_API_KEY = none then
    { status := 500, body := jObj [("error", .str openaiCtorErrMsg)],
      providerCalled := false, stored := false, deleted := false,
      selected := none, payload := none, usedMime := none }
  else
    { status := 200, body := resp,
      providerCalled := true, stored := false, deleted := false,
      selected := some .openaiChat,
      payload := some (chatPayload (getField body "imageUrl")), usedMime := none }

/-! Concrete fixtures used by witnesses and counterexamples. -/

/-- A well-formed PNG upload part. -/
def pngPart : Part :=
  { originalFilename := some "leaf.png", filename := none, mimetype := some "image/png" }

/-- A GIF upload part with a matching declared MIME type. -/
def gifPart : Part :=
  { originalFilename := some "leaf.gif", filename := none, mimetype := some "image/gif" }

/-- A disallowed upload part: executable extension, non-image MIME type. -/
def exePart : Part :=
  { originalFilename := some "leaf.exe", filename := none, mimetype := some "application/octet-stream" }

/-- No credential configured at all. -/
def envNone : Env :=
  { OPENAI_API_KEY := none, CLAUDE_API_KEY := none, GEMINI_API_KEY := none,
    GEMINI_API_URL := none, GEMINI_MODEL := none }

/-- Only the OpenAI key configured. -/
def envOpenAI : Env :=
  { OPENAI_API_KEY := some "sk-test", CLAUDE_API_KEY := none, GEMINI_API_KEY := none,
    GEMINI_API_URL := none, GEMINI_MODEL := none }

/-- Only the Claude key configured. -/
def envClaudeOnly : Env :=
  { OPENAI_API_KEY := none, CLAUDE_API_KEY := some "ck", GEMINI_API_KEY := none,
    GEMINI_API_URL := none, GEMINI_MODEL := none }

/-- Claude key plus a complete Gemini configuration. -/
def envBoth : Env :=
  { OPENAI_API_KEY := none, CLAUDE_API_KEY := some "ck", GEMINI_API_KEY := some "gk",
    GEMINI_API_URL := some "https://gemini.example/api", GEMINI_MODEL := none }

/-- Only the native-Gemini key configured. -/
def envGemini3 : Env :=
  { OPENAI_API_KEY := none, CLAUDE_API_KEY := none, GEMINI_API_KEY := some "gk",
    GEMINI_API_URL := none, GEMINI_MODEL := none }

/-- The Claude-shaped provider response of the C8 scenario. -/
def healthyCropResp : JsonVal :=
  jObj [("content", jArr [jObj [("text", .str "Healthy crop.")]])]

/-- The five allowed extensions are the four legacy-Gemini ones plus
`.gif`. -/
lemma contains_uploadExts (e : String) :
    uploadExts.contains e = (geminiExts.contains e || e == ".gif") := by
  simp only [uploadExts, geminiExts, List.contains_cons, List.contains_nil]
  cases h1 : e == ".jpg" <;> cases h2 : e == ".jpeg" <;> cases h3 : e == ".png" <;>
    cases h4 : e == ".webp" <;> cases h5 : e == ".gif" <;> simp [h1, h2, h3, h4, h5]

/-- `extname` of the empty string is empty. -/
lemma extname_empty : extname "" = "" := rfl

/-- `lowerStr` of the empty string is empty. -/
lemma lowerStr_empty : lowerStr "" = "" := rfl

/-- C1 (amended): the intake filters of `api/analyze.js` and
`api/analyze-claude.js` accept a part exactly when the specification's
allow-list predicate (MIME starts with `image/` AND lower-cased extension in
`{.jpg,.jpeg,.png,.webp,.gif}`) holds of its declared MIME type and
filename; the legacy native-Gemini handler's filter is the same predicate
with `.gif` removed from the set; and in each of the three upload handlers
a part the filter rejects yields HTTP 400 with no provider call. -/
theorem c1_allowlist_amended :
    (∀ p : Part, filterAnalyze p
      = specAllowedUpload p.mimetype (((p.originalFilename).orElse fun _ => p.filename).getD ""))
    ∧ (∀ p : Part, filterClaude p
      = specAllowedUpload p.mimetype (((p.originalFilename).orElse fun _ => p.filename).getD ""))
    ∧ (∀ p : Part, filterGemini p
      = (specAllowedUpload p.mimetype ((p.originalFilename).getD "")
          && (lowerStr (extname ((p.originalFilename).getD "")) != ".gif")))
    ∧ (∀ (env : Env) (p : Part) (sp b64 : String) (resp : JsonVal),
        filterAnalyze p = false →
        (handlerAnalyze env "POST" (some p) sp b64 resp).status = 400
        ∧ (handlerAnalyze env "POST" (some p) sp b64 resp).providerCalled = false)
    ∧ (∀ (env : Env) (p : Part) (sp b64 : String) (pbody : Option JsonVal),
        filterClaude p = false →
        (handlerClaude env "POST" (some p) sp b64 pbody).status = 400
        ∧ (handlerClaude env "POST" (some p) sp b64 pbody).providerCalled = false)
    ∧ (∀ (env : Env) (p : Part) (sp b64 : String) (pbody : Option JsonVal),
        filterGemini p = false →
        (handlerGemini3 env "POST" (some p) sp b64 pbody).status = 400
        ∧ (handlerGemini3 env "POST" (some p) sp b64 pbody).providerCalled = false) := by
  refine ⟨?_, ?_, ?_, ?_, ?_, ?_⟩
  · intro p
    unfold filterAnalyze specAllowedUpload
    by_cases h : (((p.originalFilename).orElse fun _ => p.filename).getD "") = "" <;>
      simp [h, extname_empty, lowerStr_empty]
  · intro p
    unfold filterClaude specAllowedUpload
    by_cases h : (((p.originalFilename).orElse fun _ => p.filename).getD "") = "" <;>
      simp [h, extname_empty, lowerStr_empty]
  · intro p
    unfold filterGemini specAllowedUpload
    have hs : strOr p.originalFilename "" = (p.originalFilename).getD "" := by
      cases p.originalFilename with
      | none => rfl
      | some s => by_cases h2 : s = "" <;> simp [strOr, h2]
    rw [hs, contains_uploadExts]
    cases hg : lowerStr (extname ((p.originalFilename).getD "")) == ".gif" <;>
      cases hm : jsStartsWithImage p.mimetype <;>
      cases hc : geminiExts.contains (lowerStr (extname ((p.originalFilename).getD ""))) <;>
        simp_all [geminiExts]
  · intro env p sp b64 resp h
    constructor <;> simp [handlerAnalyze, parseForm, handlerAnalyzePost, h]
  · intro env p sp b64 pbody h
    constructor <;> simp [handlerClaude, parseForm, handlerClaudePost, h]
  · intro env p sp b64 pbody h
    constructor <;> simp [handlerGemini3, parseForm, handlerGemini3Post, h]

/-- C1 witness: the `leaf.exe` / `application/octet-stream` upload fails the
filter of `api/analyze.js` and is answered with 400, no provider call. -/
theorem c1_allowlist_amended_witness :
    (handlerAnalyze envOpenAI "POST" (some exePart) "/tmp/upload_abc.exe" "QUJD" (jObj [])).status = 400
    ∧ (handlerAnalyze envOpenAI "POST" (some exePart) "/tmp/upload_abc.exe" "QUJD" (jObj [])).providerCalled = false :=
  c1_allowlist_amended.2.2.2.1 envOpenAI exePart "/tmp/upload_abc.exe" "QUJD" (jObj []) (by decide)

/-- C1 counterexample: a `leaf.gif` upload with declared MIME `image/gif`
satisfies the claimed allow-list predicate, yet the legacy native-Gemini
upload handler rejects it (no `.gif` in its set): the parse filter drops
the file and the handler answers 400 without any provider call. -/
theorem c1_gif_counterexample :
    specAllowedUpload (some "image/gif") "leaf.gif" = true
    ∧ filterGemini gifPart = false
    ∧ (handlerGemini3 envGemini3 "POST" (some gifPart) "/tmp/upload_abc.gif" "QUJD" (some (jObj []))).status = 400
    ∧ (handlerGemini3 envGemini3 "POST" (some gifPart) "/tmp/upload_abc.gif" "QUJD" (some (jObj []))).providerCalled = false := by
  decide

/-- C2: evaluation at the failing input.  A valid `leaf.png` POST upload to
`api/analyze.js` with `OPENAI_API_KEY` configured succeeds with 200, a
temporary artifact was stored, and no deletion ever happened — the success
path reads the bytes and returns without `unlink`.  The same input through
`api/analyze-claude.js` deletes the artifact, showing the cleanup invariant
is implemented there and missed in `api/analyze.js`. -/
theorem c2_analyze_success_leaks_artifact :
    (handlerAnalyze envOpenAI "POST" (some pngPart) "/tmp/upload_abc.png" "QUJD"
      (jObj [("output_text", .str "ok")])).status = 200
    ∧ (handlerAnalyze envOpenAI "POST" (some pngPart) "/tmp/upload_abc.png" "QUJD"
      (jObj [("output_text", .str "ok")])).stored = true
    ∧ (handlerAnalyze envOpenAI "POST" (some pngPart) "/tmp/upload_abc.png" "QUJD"
      (jObj [("output_text", .str "ok")])).deleted = false
    ∧ (handlerClaude envClaudeOnly "POST" (some pngPart) "/tmp/upload_abc.png" "QUJD"
      (some (jObj []))).deleted = true := by
  decide

/-- `true` exactly on string values. -/
def isStrVal : JsonVal → Bool
  | .str _ => true
  | _ => false

/-- C3 (amended): the normalization routines are total functions and the
analysis they deliver is never empty or falsy — the `analyze-claude`
extraction always delivers a non-empty string, and the `analyze.js`
extraction always delivers a truthy value which, whenever it is a string,
is non-empty (when extraction falls through to a truthy non-string
`response.output_text` that value is delivered as-is). -/
theorem c3_normalization_total_amended :
    (∀ j : JsonVal, claudeAnalysisOf j ≠ "")
    ∧ (∀ j : JsonVal, truthy (openaiAnalysisOf j) = true)
    ∧ (∀ (j : JsonVal) (s : String), openaiAnalysisOf j = .str s → s ≠ "") := by
  have hopen : ∀ j : JsonVal, truthy (openaiAnalysisOf j) = true := by
    intro j
    simp only [openaiAnalysisOf, jsOrVal]
    split
    · next h2 => exact h2
    · decide
  refine ⟨?_, hopen, ?_⟩
  · intro j
    simp only [claudeAnalysisOf]
    split
    · decide
    · next h => exact h
  · intro j s h hs
    have ht := hopen j
    rw [h, hs] at ht
    exact absurd ht (by decide)

/-- C3 witness: concrete instances of the amended claim at the empty-object
response. -/
theorem c3_normalization_total_amended_witness :
    claudeAnalysisOf (jObj []) ≠ ""
    ∧ truthy (openaiAnalysisOf (jObj [])) = true
    ∧ "AI did not return any analysis for this image." ≠ "" :=
  ⟨c3_normalization_total_amended.1 (jObj []),
   c3_normalization_total_amended.2.1 (jObj []),
   c3_normalization_total_amended.2.2 (jObj [])
     "AI did not return any analysis for this image." (by decide)⟩

/-- C3 counterexample: for the provider response `{"output_text": 5}` the
`analyze.js` normalization does not return a string — the truthy non-string
`output_text` value is delivered to the caller as the analysis. -/
theorem c3_nonstring_counterexample :
    openaiAnalysisOf (jObj [("output_text", .num 5)]) = .num 5
    ∧ isStrVal (openaiAnalysisOf (jObj [("output_text", .num 5)])) = false
    ∧ getField (handlerAnalyze envOpenAI "POST" (some pngPart) "/tmp/upload_abc.png" "QUJD"
        (jObj [("output_text", .num 5)])).body "analysis" = .num 5 := by
  decide

/-- C4 (amended): the three upload-mode handlers answer every non-POST
request with 405 `{"error":"Method not allowed"}` and perform no upload
parsing and no provider call (the whole run equals the fixed `method405`
record); the legacy `imageUrl` chat-completions handler performs no method
check at all — its behaviour is independent of the request method. -/
theorem c4_method_gate_amended :
    (∀ (env : Env) (m : String) (part : Option Part) (sp b64 : String) (resp : JsonVal),
      m ≠ "POST" → handlerAnalyze env m part sp b64 resp = method405)
    ∧ (∀ (env : Env) (m : String) (part : Option Part) (sp b64 : String) (pbody : Option JsonVal),
      m ≠ "POST" → handlerClaude env m part sp b64 pbody = method405)
    ∧ (∀ (env : Env) (m : String) (part : Option Part) (sp b64 : String) (pbody : Option JsonVal),
      m ≠ "POST" → handlerGemini3 env m part sp b64 pbody = method405)
    ∧ (∀ (env : Env) (m : String) (body resp : JsonVal),
      handlerUrl env m body resp = handlerUrl env "POST" body resp) := by
  refine ⟨?_, ?_, ?_, ?_⟩
  · intro env m part sp b64 resp h
    simp [handlerAnalyze, h]
  · intro env m part sp b64 pbody h
    simp [handlerClaude, h]
  · intro env m part sp b64 pbody h
    simp [handlerGemini3, h]
  · intro env m body resp
    rfl

/-- C4 witness: a GET request to `api/analyze.js` is answered with the 405
record. -/
theorem c4_method_gate_amended_witness :
    handlerAnalyze envNone "GET" none "" "" (jObj []) = method405 :=
  c4_method_gate_amended.1 envNone "GET" none "" "" (jObj []) (by decide)

/-- C4 counterexample: a GET request to the legacy `imageUrl` handler is not
answered with 405 — with a key configured it proceeds all the way to the
provider call and returns 200. -/
theorem c4_get_counterexample :
    (handlerUrl envOpenAI "GET" (jObj [("imageUrl", .str "https://x.example/leaf.png")]) (jObj [])).status = 200
    ∧ (handlerUrl envOpenAI "GET" (jObj [("imageUrl", .str "https://x.example/leaf.png")]) (jObj [])).providerCalled = true
    ∧ (handlerUrl envOpenAI "GET" (jObj [("imageUrl", .str "https://x.example/leaf.png")]) (jObj [])).status ≠ 405 := by
  decide

/-- A provider call in `api/analyze.js` implies the OpenAI key was
present. -/
lemma analyze_called_needs_key (env : Env) (files : Option FileObj) (resp : JsonVal)
    (h : (handlerAnalyzePost env files resp).providerCalled = true) :
    truthyEnv env.OPENAI_API_KEY = true := by
  cases files with
  | none => simp [handlerAnalyzePost] at h
  | some img =>
    simp only [handlerAnalyzePost] at h
    split at h
    · simp at h
    · split at h
      · simp at h
      · split at h
        · simp at h
        · next hk =>
            cases hb : truthyEnv env.OPENAI_API_KEY with
            | false => exact absurd hb hk
            | true => rfl

/-- A provider call in `api/analyze-claude.js` implies a usable credential
configuration was present. -/
lemma claude_called_needs_key (env : Env) (files : Option FileObj) (pbody : Option JsonVal)
    (h : (handlerClaudePost env files pbody).providerCalled = true) :
    (truthyEnv env.CLAUDE_API_KEY
      || (truthyEnv env.GEMINI_API_KEY && truthyEnv env.GEMINI_API_URL)) = true := by
  cases files with
  | none => simp [handlerClaudePost] at h
  | some img =>
    simp only [handlerClaudePost] at h
    split at h
    · simp [claudeCatch] at h
    · split at h
      · simp [claudeCatch] at h
      · split at h
        · simp at h
        · next hk =>
            cases hcb : truthyEnv env.CLAUDE_API_KEY <;>
              cases hgb : truthyEnv env.GEMINI_API_KEY <;>
                cases hub : truthyEnv env.GEMINI_API_URL <;> simp_all

/-- A provider call in the legacy native-Gemini handler implies the Gemini
key was present. -/
lemma gemini3_called_needs_key (env : Env) (files : Option FileObj) (pbody : Option JsonVal)
    (h : (handlerGemini3Post env files pbody).providerCalled = true) :
    truthyEnv env.GEMINI_API_KEY = true := by
  cases files with
  | none => simp [handlerGemini3Post] at h
  | some img =>
    simp only [handlerGemini3Post] at h
    split at h
    · simp at h
    · split at h
      · simp at h
      · split at h
        · simp at h
        · next hk =>
            cases hb : truthyEnv env.GEMINI_API_KEY with
            | false => exact absurd hb hk
            | true => rfl

/-- C5: in every variant an absent credential prevents the provider call
and, for a request that passes upload intake (POST, filter-accepted part,
stored path with an allowed extension), produces a 500 response carrying
the variant's configuration-specific error message.  For the legacy
`imageUrl` handler the failure is the OpenAI SDK constructor throw, which
also yields 500 before any call, for every request. -/
theorem c5_missing_credential_500 :
    (∀ (env : Env) (m : String) (p : Part) (sp b64 : String) (resp : JsonVal),
      truthyEnv env.OPENAI_API_KEY = false →
      (handlerAnalyze env m (some p) sp b64 resp).providerCalled = false
      ∧ (m = "POST" → filterAnalyze p = true →
          uploadExts.contains (lowerStr (extname sp)) = true →
          (handlerAnalyze env m (some p) sp b64 resp).status = 500
          ∧ (handlerAnalyze env m (some p) sp b64 resp).body
            = jObj [("error", .str openaiConfigMsg)]))
    ∧ (∀ (env : Env) (m : String) (p : Part) (sp b64 : String) (pbody : Option JsonVal),
      truthyEnv env.CLAUDE_API_KEY = false →
      (truthyEnv env.GEMINI_API_KEY && truthyEnv env.GEMINI_API_URL) = false →
      (handlerClaude env m (some p) sp b64 pbody).providerCalled = false
      ∧ (m = "POST" → filterClaude p = true →
          uploadExts.contains (lowerStr (extname sp)) = true →
          (handlerClaude env m (some p) sp b64 pbody).status = 500
          ∧ (handlerClaude env m (some p) sp b64 pbody).body
            = jObj [("error", .str claudeConfigMsg)]))
    ∧ (∀ (env : Env) (m : String) (body resp : JsonVal),
      env.OPENAI_API_KEY = none →
      (handlerUrl env m body resp).providerCalled = false
      ∧ (handlerUrl env m body resp).status = 500)
    ∧ (∀ (env : Env) (m : String) (p : Part) (sp b64 : String) (pbody : Option JsonVal),
      truthyEnv env.GEMINI_API_KEY = false →
      (handlerGemini3 env m (some p) sp b64 pbody).providerCalled = false
      ∧ (m = "POST" → filterGemini p = true →
          geminiExts.contains (lowerStr (extname sp)) = true →
          (handlerGemini3 env m (some p) sp b64 pbody).status = 500
          ∧ (handlerGemini3 env m (some p) sp b64 pbody).body
            = jObj [("error", .str "GEMINI_API_KEY not found in environment variables.")])) := by
  refine ⟨?_, ?_, ?_, ?_⟩
  · intro env m p sp b64 resp h
    constructor
    · by_cases hm : m = "POST"
      · simp only [handlerAnalyze, hm, if_pos]
        cases hc : (handlerAnalyzePost env (parseForm filterAnalyze (some p) sp b64) resp).providerCalled with
        | false => rfl
        | true => exact absurd (analyze_called_needs_key _ _ _ hc) (by simp [h])
      · simp [handlerAnalyze, hm, method405]
    · intro hm hf hext
      subst hm
      have hsp : ¬ sp = "" := by
        intro he; rw [he] at hext; exact absurd hext (by decide)
      have hext2 : lowerStr (extname sp) ∈ uploadExts := by simpa using hext
      constructor <;>
        simp [handlerAnalyze, parseForm, hf, handlerAnalyzePost, hsp, hext2, h]
  · intro env m p sp b64 pbody hc hg
    constructor
    · by_cases hm : m = "POST"
      · simp only [handlerClaude, hm, if_pos]
        cases hcall : (handlerClaudePost env (parseForm filterClaude (some p) sp b64) pbody).providerCalled with
        | false => rfl
        | true => exact absurd (claude_called_needs_key _ _ _ hcall) (by simp [hc, hg])
      · simp [handlerClaude, hm, method405]
    · intro hm hf hext
      subst hm
      have hsp : ¬ sp = "" := by
        intro he; rw [he] at hext; exact absurd hext (by decide)
      have hext2 : lowerStr (extname sp) ∈ uploadExts := by simpa using hext
      constructor <;>
        simp [handlerClaude, parseForm, hf, handlerClaudePost, hsp, hext2, hc, hg]
  · intro env m body resp h
    by_cases hb : body = (.null : JsonVal) <;> constructor <;> simp [handlerUrl, hb, h]
  · intro env m p sp b64 pbody h
    constructor
    · by_cases hm : m = "POST"
      · simp only [handlerGemini3, hm, if_pos]
        cases hc : (handlerGemini3Post env (parseForm filterGemini (some p) sp b64) pbody).providerCalled with
        | false => rfl
        | true => exact absurd (gemini3_called_needs_key _ _ _ hc) (by simp [h])
      · simp [handlerGemini3, hm, method405]
    · intro hm hf hext
      subst hm
      have hsp : ¬ sp = "" := by
        intro he; rw [he] at hext; exact absurd hext (by decide)
      have hext2 : lowerStr (extname sp) ∈ geminiExts := by simpa using hext
      constructor <;>
        simp [handlerGemini3, parseForm, hf, handlerGemini3Post, hsp, hext2, h]

/-- C5 witness: with no environment configuration at all, a valid POST
`leaf.png` upload to `api/analyze.js` gets a 500 with the
`OPENAI_API_KEY` misconfiguration message, and no provider call occurs. -/
theorem c5_missing_credential_500_witness :
    (handlerAnalyze envNone "POST" (some pngPart) "/tmp/upload_abc.png" "QUJD" (jObj [])).providerCalled = false
    ∧ (handlerAnalyze envNone "POST" (some pngPart) "/tmp/upload_abc.png" "QUJD" (jObj [])).status = 500
    ∧ (handlerAnalyze envNone "POST" (some pngPart) "/tmp/upload_abc.png" "QUJD" (jObj [])).body
      = jObj [("error", .str openaiConfigMsg)] := by
  have h := c5_missing_credential_500.1 envNone "POST" pngPart "/tmp/upload_abc.png" "QUJD"
    (jObj []) (by decide)
  exact ⟨h.1, (h.2 rfl (by decide) (by decide)).1, (h.2 rfl (by decide) (by decide)).2⟩

/-- Any run of `api/analyze-claude.js` that reaches the provider call ends
in a 200 response built from the parsed (or empty-object-substituted)
provider body. -/
lemma handlerClaudePost_success_shape (env : Env) (files : Option FileObj) (pbody : Option JsonVal)
    (h : (handlerClaudePost env files pbody).providerCalled = true) :
    (handlerClaudePost env files pbody).status = 200
    ∧ (handlerClaudePost env files pbody).body
      = jObj [("analysis", .str (claudeAnalysisOf (pbody.getD (jObj [])))),
              ("raw", pbody.getD (jObj []))] := by
  cases files with
  | none => simp [handlerClaudePost] at h
  | some img =>
    simp only [handlerClaudePost] at h ⊢
    split at h
    next => simp [claudeCatch] at h
    next h1 =>
      split at h
      next => simp [claudeCatch] at h
      next h2 =>
        split at h
        next => simp at h
        next h3 =>
          have h2b : lowerStr (extname (img.filepath.getD "")) ∈ uploadExts := by simpa using h2
          cases hcb : truthyEnv env.CLAUDE_API_KEY <;>
            cases hgb : truthyEnv env.GEMINI_API_KEY <;>
              cases hub : truthyEnv env.GEMINI_API_URL <;> simp_all

/-- With an unparseable provider body, a run of the legacy native-Gemini
handler that reaches the provider call ends in a 500. -/
lemma gemini3_none_500 (env : Env) (files : Option FileObj)
    (h : (handlerGemini3Post env files none).providerCalled = true) :
    (handlerGemini3Post env files none).status = 500 := by
  cases files with
  | none => simp [handlerGemini3Post] at h
  | some img =>
    simp only [handlerGemini3Post] at h ⊢
    split at h
    next => simp at h
    next h1 =>
      split at h
      next => simp at h
      next h2 =>
        split at h
        next => simp at h
        next h3 =>
          have h2b : lowerStr (extname (img.filepath.getD "")) ∈ geminiExts := by simpa using h2
          cases hb : truthyEnv env.GEMINI_API_KEY <;> simp_all

/-- C6 (amended): in `api/analyze-claude.js` an unparseable provider body
is replaced by `{}` (`resp.json().catch(() => ({}))`), so any run that
reaches the provider call still completes with 200 and the fallback
analysis string; the legacy native-Gemini handler has no such catch on
`gemResp.json()`, so there an unparseable body makes the request fail with
a 500 error response instead. -/
theorem c6_unparseable_body_amended :
    (∀ (env : Env) (m : String) (part : Option Part) (sp b64 : String),
      (handlerClaude env m part sp b64 none).providerCalled = true →
        (handlerClaude env m part sp b64 none).status = 200
        ∧ (handlerClaude env m part sp b64 none).body
          = jObj [("analysis", .str "No analysis returned from model."), ("raw", jObj [])])
    ∧ (∀ (env : Env) (m : String) (part : Option Part) (sp b64 : String),
      (handlerGemini3 env m part sp b64 none).providerCalled = true →
        (handlerGemini3 env m part sp b64 none).status = 500) := by
  constructor
  · intro env m part sp b64 h
    by_cases hm : m = "POST"
    · simp only [handlerClaude, hm, if_pos] at h ⊢
      have hs := handlerClaudePost_success_shape env (parseForm filterClaude part sp b64) none h
      refine ⟨hs.1, ?_⟩
      rw [hs.2]
      decide
    · simp [handlerClaude, hm, method405] at h
  · intro env m part sp b64 h
    by_cases hm : m = "POST"
    · simp only [handlerGemini3, hm, if_pos] at h ⊢
      exact gemini3_none_500 env _ h
    · simp [handlerGemini3, hm, method405] at h

/-- C6 witness: a valid upload through `analyze-claude` with the Claude key
set and an unparseable provider body completes 200 with the fallback
string and raw `{}`. -/
theorem c6_unparseable_body_amended_witness :
    (handlerClaude envClaudeOnly "POST" (some pngPart) "/tmp/upload_abc.png" "QUJD" none).status = 200
    ∧ (handlerClaude envClaudeOnly "POST" (some pngPart) "/tmp/upload_abc.png" "QUJD" none).body
      = jObj [("analysis", .str "No analysis returned from model."), ("raw", jObj [])] :=
  c6_unparseable_body_amended.1 envClaudeOnly "POST" (some pngPart) "/tmp/upload_abc.png" "QUJD"
    (by decide)

/-- C6 counterexample: in the legacy native-Gemini handler a valid upload
whose provider response body is unparseable makes the provider call but the
request ends in a 500 error, not a 200 with the fallback string. -/
theorem c6_gemini3_raises_counterexample :
    (handlerGemini3 envGemini3 "POST" (some pngPart) "/tmp/upload_abc.png" "QUJD" none).providerCalled = true
    ∧ (handlerGemini3 envGemini3 "POST" (some pngPart) "/tmp/upload_abc.png" "QUJD" none).status = 500
    ∧ (handlerGemini3 envGemini3 "POST" (some pngPart) "/tmp/upload_abc.png" "QUJD" none).status ≠ 200 := by
  decide

/-- A 200 from `api/analyze.js` carries exactly the
`{analysis, raw}` body built from the provider response. -/
lemma handlerAnalyzePost_200_shape (env : Env) (files : Option FileObj) (resp : JsonVal)
    (h : (handlerAnalyzePost env files resp).status = 200) :
    (handlerAnalyzePost env files resp).body
      = jObj [("analysis", openaiAnalysisOf resp), ("raw", resp)] := by
  cases files with
  | none => simp [handlerAnalyzePost] at h
  | some img =>
    simp only [handlerAnalyzePost] at h ⊢
    split at h
    next => simp at h
    next h1 =>
      split at h
      next => simp at h
      next h2 =>
        split at h
        next => simp at h
        next h3 =>
          have h2b : lowerStr (extname (img.filepath.getD "")) ∈ uploadExts := by simpa using h2
          cases hb : truthyEnv env.OPENAI_API_KEY <;> simp_all

/-- A 200 from `api/analyze-claude.js` carries exactly the
`{analysis, raw}` body built from the (empty-object-defaulted) provider
body. -/
lemma handlerClaudePost_200_shape (env : Env) (files : Option FileObj) (pbody : Option JsonVal)
    (h : (handlerClaudePost env files pbody).status = 200) :
    (handlerClaudePost env files pbody).body
      = jObj [("analysis", .str (claudeAnalysisOf (pbody.getD (jObj [])))),
              ("raw", pbody.getD (jObj []))] := by
  cases files with
  | none => simp [handlerClaudePost] at h
  | some img =>
    simp only [handlerClaudePost] at h ⊢
    split at h
    next => simp [claudeCatch] at h
    next h1 =>
      split at h
      next => simp [claudeCatch] at h
      next h2 =>
        split at h
        next => simp at h
        next h3 =>
          have h2b : lowerStr (extname (img.filepath.getD "")) ∈ uploadExts := by simpa using h2
          cases hcb : truthyEnv env.CLAUDE_API_KEY <;>
            cases hgb : truthyEnv env.GEMINI_API_KEY <;>
              cases hub : truthyEnv env.GEMINI_API_URL <;> simp_all

/-- A 200 from the legacy native-Gemini handler carries an
`{analysis, raw}` body whose analysis string is non-empty. -/
lemma handlerGemini3Post_200_shape (env : Env) (files : Option FileObj) (pbody : Option JsonVal)
    (h : (handlerGemini3Post env files pbody).status = 200) :
    ∃ a r, (handlerGemini3Post env files pbody).body
      = jObj [("analysis", .str a), ("raw", r)] ∧ a ≠ "" := by
  cases files with
  | none => simp [handlerGemini3Post] at h
  | some img =>
    simp only [handlerGemini3Post] at h ⊢
    split at h
    next => simp at h
    next h1 =>
      split at h
      next => simp at h
      next h2 =>
        split at h
        next => simp at h
        next h3 =>
          cases pbody with
          | none => simp at h
          | some data =>
            cases hge : geminiExtract data with
            | error e => simp [hge] at h
            | ok t =>
              refine ⟨gemini3AnalysisOf t, data, ?_, ?_⟩
              · have h2b : lowerStr (extname (img.filepath.getD "")) ∈ geminiExts := by
                  simpa using h2
                cases hb : truthyEnv env.GEMINI_API_KEY <;> simp_all
              · simp only [gemini3AnalysisOf]
                split
                · decide
                · next hne => exact hne

/-- A 200 from the legacy `imageUrl` handler carries the provider response
object itself as the body. -/
lemma handlerUrl_200_shape (env : Env) (m : String) (body resp : JsonVal)
    (h : (handlerUrl env m body resp).status = 200) :
    (handlerUrl env m body resp).body = resp := by
  simp only [handlerUrl] at h ⊢
  split at h
  next => simp at h
  next h1 =>
    split at h
    next => simp at h
    next h2 => simp [h1, h2]

/-- C7 (amended): every 200 from the three upload-mode handlers has exactly
the body `{"analysis": <normalized analysis>, "raw": <provider response>}`
(non-empty analysis in the Gemini case); the legacy `imageUrl`
chat-completions handler instead returns the provider response object
itself as its 200 body. -/
theorem c7_success_shape_amended :
    (∀ (env : Env) (m : String) (part : Option Part) (sp b64 : String) (resp : JsonVal),
      (handlerAnalyze env m part sp b64 resp).status = 200 →
        (handlerAnalyze env m part sp b64 resp).body
          = jObj [("analysis", openaiAnalysisOf resp), ("raw", resp)])
    ∧ (∀ (env : Env) (m : String) (part : Option Part) (sp b64 : String) (pbody : Option JsonVal),
      (handlerClaude env m part sp b64 pbody).status = 200 →
        (handlerClaude env m part sp b64 pbody).body
          = jObj [("analysis", .str (claudeAnalysisOf (pbody.getD (jObj [])))),
                  ("raw", pbody.getD (jObj []))])
    ∧ (∀ (env : Env) (m : String) (part : Option Part) (sp b64 : String) (pbody : Option JsonVal),
      (handlerGemini3 env m part sp b64 pbody).status = 200 →
        ∃ a r, (handlerGemini3 env m part sp b64 pbody).body
          = jObj [("analysis", .str a), ("raw", r)] ∧ a ≠ "")
    ∧ (∀ (env : Env) (m : String) (body resp : JsonVal),
      (handlerUrl env m body resp).status = 200 →
        (handlerUrl env m body resp).body = resp) := by
  refine ⟨?_, ?_, ?_, ?_⟩
  · intro env m part sp b64 resp h
    by_cases hm : m = "POST"
    · simp only [handlerAnalyze, hm, if_pos] at h ⊢
      exact handlerAnalyzePost_200_shape env _ resp h
    · simp [handlerAnalyze, hm, method405] at h
  · intro env m part sp b64 pbody h
    by_cases hm : m = "POST"
    · simp only [handlerClaude, hm, if_pos] at h ⊢
      exact handlerClaudePost_200_shape env _ pbody h
    · simp [handlerClaude, hm, method405] at h
  · intro env m part sp b64 pbody h
    by_cases hm : m = "POST"
    · simp only [handlerGemini3, hm, if_pos] at h ⊢
      exact handlerGemini3Post_200_shape env _ pbody h
    · simp [handlerGemini3, hm, method405] at h
  · intro env m body resp h
    exact handlerUrl_200_shape env m body resp h

/-- C7 witness: the concrete `Healthy crop.` run of `analyze-claude`
has exactly the `{analysis, raw}` body. -/
theorem c7_success_shape_amended_witness :
    (handlerClaude envClaudeOnly "POST" (some pngPart) "/tmp/upload_abc.png" "QUJD"
      (some healthyCropResp)).body
    = jObj [("analysis", .str (claudeAnalysisOf ((some healthyCropResp).getD (jObj [])))),
            ("raw", (some healthyCropResp).getD (jObj []))] :=
  c7_success_shape_amended.2.1 envClaudeOnly "POST" (some pngPart) "/tmp/upload_abc.png" "QUJD"
    (some healthyCropResp) (by decide)

/-- C7 counterexample: a successful run of the legacy `imageUrl` handler
returns the provider response object itself — the body has no `analysis`
key at all. -/
theorem c7_raw_body_counterexample :
    (handlerUrl envOpenAI "POST" (jObj [("imageUrl", .str "https://x.example/leaf.png")])
      (jObj [("choices", jArr [])])).status = 200
    ∧ (handlerUrl envOpenAI "POST" (jObj [("imageUrl", .str "https://x.example/leaf.png")])
      (jObj [("choices", jArr [])])).body = jObj [("choices", jArr [])]
    ∧ getField (handlerUrl envOpenAI "POST" (jObj [("imageUrl", .str "https://x.example/leaf.png")])
      (jObj [("choices", jArr [])])).body "analysis" = .null := by
  decide

/-- When `analyze-claude` selected the Claude provider, the Claude key was
present and the Gemini configuration incomplete. -/
lemma claude_selected_claude (env : Env) (files : Option FileObj) (pbody : Option JsonVal)
    (h : (handlerClaudePost env files pbody).selected = some Provider.claude) :
    truthyEnv env.CLAUDE_API_KEY = true
    ∧ (truthyEnv env.GEMINI_API_KEY && truthyEnv env.GEMINI_API_URL) = false := by
  cases files with
  | none => simp [handlerClaudePost] at h
  | some img =>
    simp only [handlerClaudePost] at h
    split at h
    next => simp [claudeCatch] at h
    next h1 =>
      split at h
      next => simp [claudeCatch] at h
      next h2 =>
        split at h
        next => simp at h
        next h3 =>
          cases hgb : (truthyEnv env.GEMINI_API_KEY && truthyEnv env.GEMINI_API_URL) with
          | true => simp [hgb] at h
          | false =>
            refine ⟨?_, rfl⟩
            cases hcb : truthyEnv env.CLAUDE_API_KEY with
            | false => exact absurd ⟨hcb, hgb⟩ h3
            | true => rfl

/-- When the Gemini configuration is complete and `analyze-claude` makes a
provider call, the Gemini provider is the one selected. -/
lemma claude_selected_gemini (env : Env) (files : Option FileObj) (pbody : Option JsonVal)
    (hg : (truthyEnv env.GEMINI_API_KEY && truthyEnv env.GEMINI_API_URL) = true)
    (h : (handlerClaudePost env files pbody).providerCalled = true) :
    (handlerClaudePost env files pbody).selected = some Provider.gemini := by
  cases files with
  | none => simp [handlerClaudePost] at h
  | some img =>
    simp only [handlerClaudePost] at h ⊢
    split at h
    next => simp [claudeCatch] at h
    next h1 =>
      split at h
      next => simp [claudeCatch] at h
      next h2 =>
        split at h
        next => simp at h
        next h3 =>
          have h2b : lowerStr (extname (img.filepath.getD "")) ∈ uploadExts := by simpa using h2
          cases hgb : truthyEnv env.GEMINI_API_KEY <;>
            cases hub : truthyEnv env.GEMINI_API_URL <;> simp_all

/-- C9: in the `analyze-claude` handler the complete Gemini configuration
(`GEMINI_API_KEY` and `GEMINI_API_URL`) wins over the Claude key: whenever
it is present and a provider call happens, Gemini is the called provider —
in particular also when `CLAUDE_API_KEY` is present as well — and Claude is
called only when the Claude key is present and the Gemini configuration is
incomplete. -/
theorem c9_provider_selection :
    (∀ (env : Env) (m : String) (part : Option Part) (sp b64 : String) (pbody : Option JsonVal),
      (truthyEnv env.GEMINI_API_KEY && truthyEnv env.GEMINI_API_URL) = true →
      (handlerClaude env m part sp b64 pbody).providerCalled = true →
        (handlerClaude env m part sp b64 pbody).selected = some Provider.gemini)
    ∧ (∀ (env : Env) (m : String) (part : Option Part) (sp b64 : String) (pbody : Option JsonVal),
      (handlerClaude env m part sp b64 pbody).selected = some Provider.claude →
        truthyEnv env.CLAUDE_API_KEY = true
        ∧ (truthyEnv env.GEMINI_API_KEY && truthyEnv env.GEMINI_API_URL) = false) := by
  constructor
  · intro env m part sp b64 pbody hg h
    by_cases hm : m = "POST"
    · simp only [handlerClaude, hm, if_pos] at h ⊢
      exact claude_selected_gemini env _ pbody hg h
    · simp [handlerClaude, hm, method405] at h
  · intro env m part sp b64 pbody h
    by_cases hm : m = "POST"
    · simp only [handlerClaude, hm, if_pos] at h
      exact claude_selected_claude env _ pbody h
    · simp [handlerClaude, hm, method405] at h

/-- C9 witness: with both the Claude key and a complete Gemini
configuration, the valid upload run calls Gemini. -/
theorem c9_provider_selection_witness :
    (handlerClaude envBoth "POST" (some pngPart) "/tmp/upload_abc.png" "QUJD"
      (some (jObj []))).selected = some Provider.gemini :=
  c9_provider_selection.1 envBoth "POST" (some pngPart) "/tmp/upload_abc.png" "QUJD"
    (some (jObj [])) (by decide) (by decide)

/-- C10: when the parsed file object carries no declared MIME type (neither
`mimetype` nor the legacy `type` field) but is otherwise readable with an
allowed stored extension, all three upload pipelines substitute
`"image/jpeg"`: it is the MIME recorded for the validated image, the upload
is not rejected, and the provider request payload is built with it. -/
theorem c10_mime_default :
    ∀ (env : Env) (img : FileObj) (resp : JsonVal) (pbody : Option JsonVal) (p : String),
      img.mimetype = none → img.type = none → img.filepath = some p → img.fsExists = true →
      uploadExts.contains (lowerStr (extname p)) = true →
      ((handlerAnalyzePost env (some img) resp).usedMime = some "image/jpeg"
        ∧ (handlerAnalyzePost env (some img) resp).status ≠ 400
        ∧ (truthyEnv env.OPENAI_API_KEY = true →
            (handlerAnalyzePost env (some img) resp).payload
              = some (openaiPromptInput ("data:image/jpeg;base64," ++ img.base64))))
      ∧ ((handlerClaudePost env (some img) pbody).usedMime = some "image/jpeg"
        ∧ (handlerClaudePost env (some img) pbody).status ≠ 400
        ∧ (truthyEnv env.CLAUDE_API_KEY = true →
            (truthyEnv env.GEMINI_API_KEY && truthyEnv env.GEMINI_API_URL) = false →
            (handlerClaudePost env (some img) pbody).payload
              = some (claudePayload "image/jpeg" img.base64)))
      ∧ (geminiExts.contains (lowerStr (extname p)) = true →
          (handlerGemini3Post env (some img) pbody).usedMime = some "image/jpeg"
          ∧ (handlerGemini3Post env (some img) pbody).status ≠ 400
          ∧ (truthyEnv env.GEMINI_API_KEY = true →
              (handlerGemini3Post env (some img) pbody).payload
                = some (gemini3Body (strOr env.GEMINI_MODEL "gemini-1.5-flash") "image/jpeg" img.base64))) := by
  intro env img resp pbody p hmt hty hfp hfs hext
  obtain ⟨fp, mt, ty, fe, b⟩ := img
  simp only at hmt hty hfp hfs
  subst hmt hty hfp hfs
  have hsp : ¬ p = "" := by
    intro he; rw [he] at hext; exact absurd hext (by decide)
  have hext2 : lowerStr (extname p) ∈ uploadExts := by simpa using hext
  refine ⟨?_, ?_, ?_⟩
  · by_cases hk : truthyEnv env.OPENAI_API_KEY = false
    · refine ⟨?_, ?_, ?_⟩ <;>
        simp [handlerAnalyzePost, hsp, hext2, strOr, hk]
    · refine ⟨?_, ?_, ?_⟩ <;>
        simp [handlerAnalyzePost, hsp, hext2, strOr, hk]
  · by_cases hck : truthyEnv env.CLAUDE_API_KEY = false <;>
      by_cases hgk : (truthyEnv env.GEMINI_API_KEY && truthyEnv env.GEMINI_API_URL) = false
    · refine ⟨?_, ?_, ?_⟩ <;>
        simp [handlerClaudePost, hsp, hext2, strOr, hck, hgk]
    · refine ⟨?_, ?_, ?_⟩ <;>
        simp [handlerClaudePost, hsp, hext2, strOr, hck, hgk]
    · refine ⟨?_, ?_, ?_⟩
      · simp [handlerClaudePost, hsp, hext2, strOr, hck, hgk]
      · simp [handlerClaudePost, hsp, hext2, strOr, hck, hgk]
      · intro hc2 hg2
        simp [handlerClaudePost, hsp, hext2, strOr, hc2, hg2]
    · refine ⟨?_, ?_, ?_⟩
      · simp [handlerClaudePost, hsp, hext2, strOr, hck, hgk]
      · simp [handlerClaudePost, hsp, hext2, strOr, hck, hgk]
      · intro hc2 hg2
        rw [hg2] at hgk
        exact absurd rfl hgk
  · intro hgext
    have hgext2 : lowerStr (extname p) ∈ geminiExts := by simpa using hgext
    by_cases hk : truthyEnv env.GEMINI_API_KEY = false
    · refine ⟨?_, ?_, ?_⟩ <;>
        simp [handlerGemini3Post, hsp, hgext2, strOr, hk]
    · cases pbody with
      | none =>
        refine ⟨?_, ?_, ?_⟩ <;> simp [handlerGemini3Post, hsp, hgext2, strOr, hk]
      | some data =>
        cases hge : geminiExtract data with
        | error e =>
          refine ⟨?_, ?_, ?_⟩ <;> simp [handlerGemini3Post, hsp, hgext2, strOr, hk, hge]
        | ok t =>
          refine ⟨?_, ?_, ?_⟩ <;> simp [handlerGemini3Post, hsp, hgext2, strOr, hk, hge]

/-- C10 witness: a stored `leaf` file with no declared MIME anywhere flows
through `api/analyze.js` as `image/jpeg`, with the data URL in the provider
payload built accordingly. -/
theorem c10_mime_default_witness :
    (handlerAnalyzePost envOpenAI
      (some { filepath := some "/tmp/upload_abc.png", mimetype := none, type := none,
              fsExists := true, base64 := "QUJD" }) (jObj [])).usedMime = some "image/jpeg"
    ∧ (handlerAnalyzePost envOpenAI
      (some { filepath := some "/tmp/upload_abc.png", mimetype := none, type := none,
              fsExists := true, base64 := "QUJD" }) (jObj [])).payload
      = some (openaiPromptInput "data:image/jpeg;base64,QUJD") := by
  have h := c10_mime_default envOpenAI
    { filepath := some "/tmp/upload_abc.png", mimetype := none, type := none,
      fsExists := true, base64 := "QUJD" } (jObj []) none "/tmp/upload_abc.png"
    rfl rfl rfl rfl (by decide)
  exact ⟨h.1.1, h.1.2.2 (by decide)⟩

/-- C8: the Claude-shaped provider response `{"content":[{"text":"Healthy
crop."}]}` normalizes to exactly `"Healthy crop."`, both at the extraction
function and in the analysis the `analyze-claude` handler delivers. -/
theorem c8_claude_shape_normalization :
    extractAnalysisText healthyCropResp = "Healthy crop."
    ∧ (handlerClaude envClaudeOnly "POST" (some pngPart) "/tmp/upload_abc.png" "QUJD"
        (some healthyCropResp)).body
      = jObj [("analysis", .str "Healthy crop."), ("raw", healthyCropResp)] := by
  decide

end AgriConnect
